import Mathlib

/-!
# Humanoid leg IK: leg chain initialisation and ground probe

A shallow embedding of `Source/ue4ik/IK/HumanoidIK.h` and
`Source/ue4ik/IK/HumanoidIK.cpp`.

* Scalars (`float` in the source) are an arbitrary type `α`; the chain
  functions only need `0`, `+`, `-`, `*` on it, the probe needs a linear order.
  No algebraic law is assumed unless a theorem says so.
* Member functions that write to `this` take the object and return the
  updated object next to the C++ return value.
* Engine services and the parts of the plugin declared in headers that are not
  part of the sources at hand (`IK.h`, `Utility/AnimUtil.h`,
  `Utility/TraceUtil.h`) are fields of an environment record that every
  definition receives as its first argument.
* `UE_LOG` calls have no effect on the program state and are left out.
-/

/-! ## Data model -/

/-- Engine vector `FVector`: three scalar components. -/
structure FVector (α : Type) where
  X : α
  Y : α
  Z : α
deriving DecidableEq

/-- Engine `FVector::operator-`: componentwise difference. -/
instance instSubFVector {α : Type} [Sub α] : Sub (FVector α) :=
  ⟨fun a b => ⟨a.X - b.X, a.Y - b.Y, a.Z - b.Z⟩⟩

/-- Engine `FBoneReference`: the name of a joint and the index it was resolved to.
Joint names are natural numbers here. -/
structure FBoneReference where
  BoneName : Nat
  BoneIndex : Int
deriving DecidableEq

/-- Plugin type `FIKBone` (declared in `IK.h`): the two members the sources read are
`BoneRef` (with `BoneRef.BoneIndex`) and the compact pose index `BoneIndex`. -/
structure FIKBone where
  BoneRef : FBoneReference
  BoneIndex : Int
deriving DecidableEq

/-- The leg chain `FHumanoidLegChain` together with the two members it inherits from
`FIKModChain` and assigns (`RootBone`, `EffectorBone`). -/
structure FHumanoidLegChain (α : Type) where
  RootBone : FIKBone
  EffectorBone : FIKBone
  FootRadius : α
  ToeRadius : α
  HipBone : FIKBone
  ThighBone : FIKBone
  ShinBone : FIKBone
  FootBone : FIKBone
  bInitOk : Bool
  TotalChainLength : α
deriving DecidableEq

/-- What the chain functions use from outside `HumanoidIK.cpp`, for a bone
container type `BC` and scalars `α`.

* `Init b rb` is `b.Init(rb)` of `FIKBone`: the returned flag and the bone afterwards.
* `IsValid b rb` is `b.IsValid(rb)` of `FIKBone`, likewise (the method is not
  known to be `const`, so it may hand back a changed bone).
* `GetRefPoseLocation rb i` is `rb.GetRefPoseArray()[i].GetLocation()`.
* `Sqrt` is `FMath::Sqrt`. -/
structure FBoneEnv (BC α : Type) where
  Init : FIKBone → BC → Bool × FIKBone
  IsValid : FIKBone → BC → Bool × FIKBone
  GetRefPoseLocation : BC → Int → FVector α
  Sqrt : α → α

/-- Engine `FVector::Size`: `Sqrt(X*X + Y*Y + Z*Z)`. -/
def FVector.Size {BC α : Type} [Add α] [Mul α] (E : FBoneEnv BC α) (v : FVector α) : α :=
  E.Sqrt (v.X * v.X + v.Y * v.Y + v.Z * v.Z)

/-! ## `FHumanoidLegChain` -/

/-- Source function `FHumanoidLegChain::GetTotalChainLength() const` (HumanoidIK.cpp 89-92). -/
def FHumanoidLegChain.GetTotalChainLength {α : Type} (c : FHumanoidLegChain α) : α :=
  c.TotalChainLength

/-- Source function `FHumanoidLegChain::IsValidInternal` (HumanoidIK.cpp 79-87). The four `IsValid`
calls are joined by `&&`, so a call is made only when all earlier ones returned
true. -/
def FHumanoidLegChain.IsValidInternal {BC α : Type} (E : FBoneEnv BC α)
    (c : FHumanoidLegChain α) (RequiredBones : BC) : Bool × FHumanoidLegChain α :=
  let r1 := E.IsValid c.HipBone RequiredBones
  let c := { c with HipBone := r1.2 }
  if r1.1 then
    let r2 := E.IsValid c.ThighBone RequiredBones
    let c := { c with ThighBone := r2.2 }
    if r2.1 then
      let r3 := E.IsValid c.ShinBone RequiredBones
      let c := { c with ShinBone := r3.2 }
      if r3.1 then
        let r4 := E.IsValid c.FootBone RequiredBones
        let c := { c with FootBone := r4.2 }
        (r4.1, c)
      else (false, c)
    else (false, c)
  else (false, c)

/-- Source function `FHumanoidLegChain::InitAndAssignBones` (HumanoidIK.cpp 94-156), statement by
statement. -/
def FHumanoidLegChain.InitAndAssignBones {BC α : Type} [Zero α] [Add α] [Sub α] [Mul α]
    (E : FBoneEnv BC α) (c : FHumanoidLegChain α) (RequiredBones : BC) :
    Bool × FHumanoidLegChain α :=
  let c := { c with TotalChainLength := 0 }
  let c := { c with bInitOk := true }
  let c := { c with EffectorBone := c.ShinBone }
  let c := { c with RootBone := c.HipBone }
  let rHip := E.Init c.HipBone RequiredBones
  let c := { c with HipBone := rHip.2 }
  let c := if !rHip.1 then { c with bInitOk := false } else c
  let rThigh := E.Init c.ThighBone RequiredBones
  let c := { c with ThighBone := rThigh.2 }
  let c := if !rThigh.1 then { c with bInitOk := false } else c
  let rShin := E.Init c.ShinBone RequiredBones
  let c := { c with ShinBone := rShin.2 }
  let c := if !rShin.1 then { c with bInitOk := false } else c
  let rFoot := E.Init c.FootBone RequiredBones
  let c := { c with FootBone := rFoot.2 }
  let c := if !rFoot.1 then { c with bInitOk := false } else c
  let c :=
    if c.bInitOk then
      let HipLoc := E.GetRefPoseLocation RequiredBones c.HipBone.BoneRef.BoneIndex
      let KneeLoc := E.GetRefPoseLocation RequiredBones c.ThighBone.BoneRef.BoneIndex
      let AnkleLoc := E.GetRefPoseLocation RequiredBones c.ShinBone.BoneRef.BoneIndex
      let ToeLoc := E.GetRefPoseLocation RequiredBones c.FootBone.BoneRef.BoneIndex
      let ThighVec := KneeLoc - HipLoc
      let ShinVec := AnkleLoc - KneeLoc
      let FootVec := ToeLoc - AnkleLoc
      let ThighSize := FVector.Size E ThighVec
      let ShinSize := FVector.Size E ShinVec
      let FootSize := FVector.Size E FootVec
      { c with TotalChainLength := ThighSize + ShinSize + FootSize }
    else c
  (c.bInitOk, c)

/-! ## Trace data and its wrapper -/

/-- Source struct `FHumanoidIKTraceData` (HumanoidIK.h 71-80) over a hit-result type `H`
(the engine's `FHitResult`). -/
structure FHumanoidIKTraceData (H : Type) where
  FootHitResult : H
  ToeHitResult : H
deriving DecidableEq

/-- The members of `UHumanoidIKTraceData_Wrapper` (HumanoidIK.h 121-123). -/
structure UHumanoidIKTraceData_Wrapper (H : Type) where
  bUpdatedThisTick : Bool
  TraceData : FHumanoidIKTraceData H
deriving DecidableEq

/-- The constructor of `UHumanoidIKTraceData_Wrapper` (HumanoidIK.h 92-96): the flag
starts false, `TraceData` is default-constructed from the engine's default
hit result `defaultHit`. -/
def UHumanoidIKTraceData_Wrapper.construct {H : Type} (defaultHit : H) :
    UHumanoidIKTraceData_Wrapper H :=
  { bUpdatedThisTick := false, TraceData := ⟨defaultHit, defaultHit⟩ }

/-- Source function `UHumanoidIKTraceData_Wrapper::GetTraceData` (HumanoidIK.h 107-116). The result is
the returned trace data, whether the staleness warning was logged (only in a
build with `ENABLE_IK_DEBUG`), and the wrapper after the call. -/
def UHumanoidIKTraceData_Wrapper.GetTraceData {H : Type} (ENABLE_IK_DEBUG : Bool)
    (w : UHumanoidIKTraceData_Wrapper H) :
    FHumanoidIKTraceData H × Bool × UHumanoidIKTraceData_Wrapper H :=
  let warned := if ENABLE_IK_DEBUG then (if !w.bUpdatedThisTick then true else false) else false
  (w.TraceData, warned, w)

/-! ## The ground probe -/

/-- Engine `FMath::Max`: `(A >= B) ? A : B`. -/
def FMath.Max {α : Type} [LinearOrder α] (A B : α) : α :=
  if A ≥ B then A else B

/-- Engine `FMath::Max3`: `Max(Max(A, B), C)`. -/
def FMath.Max3 {α : Type} [LinearOrder α] (A B C : α) : α :=
  FMath.Max (FMath.Max A B) C

/-- Engine `ECollisionChannel`, the first channels of the enumeration. -/
inductive ECollisionChannel where
  | ECC_WorldStatic
  | ECC_WorldDynamic
  | ECC_Pawn
  | ECC_Visibility
  | ECC_Camera
deriving DecidableEq

/-- What `FHumanoidIK::HumanoidIKLegTrace` uses from outside `HumanoidIK.cpp`, for
types of characters `Ch`, skeletal mesh components `Sk`, worlds `W`, poses `P`
and hit results `H`.

* `GetMesh`, `GetWorld`: the accessors of `ACharacter`.
* `GetBoneCSLocation sk pose i` is `FAnimUtil::GetBoneCSLocation(sk, pose, i)`.
* `ComponentToWorld sk p` is `sk->ComponentToWorld.TransformPosition(p)`.
* `LineTrace w ignored start end hit channel physMat debugDraw` is
  `UTraceUtil::LineTrace` with the same arguments; `hit` is the hit result
  passed by reference as it was before the call and the value is that hit
  result after the call. -/
structure FTraceEnv (Ch Sk W P H α : Type) where
  GetMesh : Ch → Sk
  GetWorld : Ch → W
  GetBoneCSLocation : Sk → P → Int → FVector α
  ComponentToWorld : Sk → FVector α → FVector α
  LineTrace : W → Ch → FVector α → FVector α → H → ECollisionChannel → Bool → Bool → H

/-- The four component-space end points of the two probes. -/
structure FLegTraceSegments (α : Type) where
  FootTraceStart : FVector α
  FootTraceEnd : FVector α
  ToeTraceStart : FVector α
  ToeTraceEnd : FVector α
deriving DecidableEq

/-- Lines 29-51 of `FHumanoidIK::HumanoidIKLegTrace`, for a character that is not
null: the component-space end points of the foot and the toe probe. The locals
`RequiredBones` and `TraceDirection` are computed by the source and never used;
they are left out. -/
def FHumanoidIK.HumanoidIKLegTraceSegments {Ch Sk W P H α : Type}
    [LinearOrder α] [Add α] [Sub α]
    (E : FTraceEnv Ch Sk W P H α) (Character : Ch) (MeshBases : P)
    (LegChain : FHumanoidLegChain α) (PelvisBone : FIKBone) (MaxPelvisAdjustHeight : α) :
    FLegTraceSegments α :=
  let SkelComp := E.GetMesh Character
  let PelvisLocation := E.GetBoneCSLocation SkelComp MeshBases PelvisBone.BoneIndex
  let FootLocation := E.GetBoneCSLocation SkelComp MeshBases LegChain.ShinBone.BoneIndex
  let ToeLocation := E.GetBoneCSLocation SkelComp MeshBases LegChain.FootBone.BoneIndex
  let TraceStartHeight := FMath.Max3 (FootLocation.Z + LegChain.FootRadius)
    (ToeLocation.Z + LegChain.ToeRadius)
    PelvisLocation.Z
  let TraceEndHeight := PelvisLocation.Z -
    (LegChain.GetTotalChainLength + LegChain.FootRadius + LegChain.ToeRadius
      + MaxPelvisAdjustHeight)
  { FootTraceStart := ⟨FootLocation.X, FootLocation.Y, TraceStartHeight⟩
    FootTraceEnd := ⟨FootLocation.X, FootLocation.Y, TraceEndHeight⟩
    ToeTraceStart := ⟨ToeLocation.X, ToeLocation.Y, TraceStartHeight⟩
    ToeTraceEnd := ⟨ToeLocation.X, ToeLocation.Y, TraceEndHeight⟩ }

/-- Source function `FHumanoidIK::HumanoidIKLegTrace` (HumanoidIK.cpp 8-77). A null `Character` is
`none`. The value is `OutTraceData` after the call. -/
def FHumanoidIK.HumanoidIKLegTrace {Ch Sk W P H α : Type}
    [LinearOrder α] [Add α] [Sub α]
    (E : FTraceEnv Ch Sk W P H α) (Character : Option Ch) (MeshBases : P)
    (LegChain : FHumanoidLegChain α) (PelvisBone : FIKBone) (MaxPelvisAdjustHeight : α)
    (OutTraceData : FHumanoidIKTraceData H) (bEnableDebugDraw : Bool) :
    FHumanoidIKTraceData H :=
  match Character with
  | none => OutTraceData
  | some Character =>
    let SkelComp := E.GetMesh Character
    let World := E.GetWorld Character
    let S := FHumanoidIK.HumanoidIKLegTraceSegments E Character MeshBases LegChain
      PelvisBone MaxPelvisAdjustHeight
    let FootTraceStart := E.ComponentToWorld SkelComp S.FootTraceStart
    let FootTraceEnd := E.ComponentToWorld SkelComp S.FootTraceEnd
    let ToeTraceStart := E.ComponentToWorld SkelComp S.ToeTraceStart
    let ToeTraceEnd := E.ComponentToWorld SkelComp S.ToeTraceEnd
    let OutTraceData := { OutTraceData with
      FootHitResult := E.LineTrace World Character FootTraceStart FootTraceEnd
        OutTraceData.FootHitResult ECollisionChannel.ECC_Pawn false bEnableDebugDraw }
    let OutTraceData := { OutTraceData with
      ToeHitResult := E.LineTrace World Character ToeTraceStart ToeTraceEnd
        OutTraceData.ToeHitResult ECollisionChannel.ECC_Pawn false bEnableDebugDraw }
    OutTraceData

/-! ## A concrete environment

An integer-valued instance of the two environment records, used to run the
definitions above on concrete legs. -/

/-- Modelled from the spec: the bone container (engine `FBoneContainer`) as the list of
joint names of the skeleton and the reference-pose location of each joint. -/
structure SkelBones where
  BoneNames : List Nat
  RefPose : List (FVector Int)
deriving DecidableEq

/-- Modelled from the spec: `FIKBone::Init` of `IK.h`, which is not among the sources. A
bone resolves when its joint name occurs in the container; the resolved index
is then stored in the bone, and a bone that does not resolve is left
without a usable index. -/
def SkelBones.Init (b : FIKBone) (rb : SkelBones) : Bool × FIKBone :=
  let i := rb.BoneNames.indexOf b.BoneRef.BoneName
  if i < rb.BoneNames.length then
    (true, { BoneRef := { b.BoneRef with BoneIndex := Int.ofNat i }, BoneIndex := Int.ofNat i })
  else
    (false, { BoneRef := { b.BoneRef with BoneIndex := -1 }, BoneIndex := -1 })

/-- Modelled from the spec: `FIKBone::IsValid` of `IK.h`, which is not among the sources. A
bone is valid when its resolved index names its joint in the container. -/
def SkelBones.IsValid (b : FIKBone) (rb : SkelBones) : Bool × FIKBone :=
  (decide (0 ≤ b.BoneRef.BoneIndex) &&
    decide (rb.BoneNames.get? b.BoneRef.BoneIndex.toNat = some b.BoneRef.BoneName), b)

/-- The reference-pose location stored for an index (the origin outside the array). -/
def SkelBones.GetRefPoseLocation (rb : SkelBones) (i : Int) : FVector Int :=
  if 0 ≤ i then (rb.RefPose.get? i.toNat).getD ⟨0, 0, 0⟩ else ⟨0, 0, 0⟩

/-- The greatest `r ≤ k` with `r * r ≤ n` (0 when there is none). -/
def natSqrtBelow : Nat → Nat → Nat
  | 0, _ => 0
  | k + 1, n => if (k + 1) * (k + 1) ≤ n then k + 1 else natSqrtBelow k n

/-- Integer square root (rounded down), exact on perfect squares. -/
def intSqrt (n : Int) : Int :=
  Int.ofNat (natSqrtBelow n.toNat n.toNat)

/-- The integer bone environment. -/
def skelBoneEnv : FBoneEnv SkelBones Int :=
  { Init := SkelBones.Init
    IsValid := SkelBones.IsValid
    GetRefPoseLocation := SkelBones.GetRefPoseLocation
    Sqrt := intSqrt }

/-- Modelled from the spec: the probe result (`Hit`, `HitPoint`) that the collision query
of `Utility/TraceUtil.h`, which is not among the sources, hands back. -/
structure FlatHit where
  bBlockingHit : Bool
  ImpactPoint : FVector Int
deriving DecidableEq

/-- A character standing in a world whose only collision surface is the horizontal
plane at height `FloorZ`; its mesh component sits at `MeshOrigin`. -/
structure FlatCharacter where
  MeshOrigin : FVector Int
  FloorZ : Int
deriving DecidableEq

/-- Modelled from the spec: the line query of `Utility/TraceUtil.h` against a horizontal
floor: a hit at the floor when the segment crosses it, no hit otherwise. -/
def flatLineTrace (FloorZ : Int) (_ignored : FlatCharacter) (Start End : FVector Int)
    (_hit : FlatHit) (_channel : ECollisionChannel) (_physMat _debugDraw : Bool) : FlatHit :=
  if End.Z ≤ FloorZ ∧ FloorZ ≤ Start.Z then ⟨true, ⟨Start.X, Start.Y, FloorZ⟩⟩
  else ⟨false, ⟨0, 0, 0⟩⟩

/-- The integer probe environment: a pose is the list of component-space joint
locations, and component space is world space shifted by the mesh origin. -/
def flatTraceEnv : FTraceEnv FlatCharacter (FVector Int) Int (List (FVector Int)) FlatHit Int :=
  { GetMesh := fun ch => ch.MeshOrigin
    GetWorld := fun ch => ch.FloorZ
    GetBoneCSLocation := fun _ pose i => (pose.get? i.toNat).getD ⟨0, 0, 0⟩
    ComponentToWorld := fun o p => ⟨p.X + o.X, p.Y + o.Y, p.Z + o.Z⟩
    LineTrace := flatLineTrace }

/-- A bone that names joint `n` and has not been resolved. -/
def unresolvedBone (n : Nat) : FIKBone :=
  { BoneRef := { BoneName := n, BoneIndex := -1 }, BoneIndex := -1 }

/-- A leg over joints 1 (hip), 2 (thigh), 3 (shin), 4 (foot), as constructed by
`FHumanoidLegChain()`: radii 10 and 5, length 0, not initialised. -/
def demoLeg : FHumanoidLegChain Int :=
  { RootBone := unresolvedBone 0
    EffectorBone := unresolvedBone 0
    FootRadius := 10
    ToeRadius := 5
    HipBone := unresolvedBone 1
    ThighBone := unresolvedBone 2
    ShinBone := unresolvedBone 3
    FootBone := unresolvedBone 4
    bInitOk := false
    TotalChainLength := 0 }

/-- A skeleton with joints 0 (pelvis), 1, 2, 3, 4; the leg segments have lengths
5, 5 and 2 in the reference pose. -/
def demoSkeleton : SkelBones :=
  { BoneNames := [0, 1, 2, 3, 4]
    RefPose := [⟨0, 0, 12⟩, ⟨0, 0, 12⟩, ⟨3, 0, 8⟩, ⟨0, 0, 4⟩, ⟨2, 0, 4⟩] }

/-- The same skeleton without the foot joint 4. -/
def demoSkeletonNoFoot : SkelBones :=
  { BoneNames := [0, 1, 2, 3]
    RefPose := [⟨0, 0, 12⟩, ⟨0, 0, 12⟩, ⟨3, 0, 8⟩, ⟨0, 0, 4⟩] }

/-- The demo skeleton scaled by two: the leg segments have lengths 10, 10 and 4. -/
def demoSkeletonTall : SkelBones :=
  { BoneNames := [0, 1, 2, 3, 4]
    RefPose := [⟨0, 0, 24⟩, ⟨0, 0, 24⟩, ⟨6, 0, 16⟩, ⟨0, 0, 8⟩, ⟨4, 0, 8⟩] }

/-- The pelvis bone of the demo skeleton, resolved to joint 0. -/
def demoPelvis : FIKBone :=
  { BoneRef := { BoneName := 0, BoneIndex := 0 }, BoneIndex := 0 }

/-- The demo leg after initialisation against the demo skeleton. -/
def demoLegReady : FHumanoidLegChain Int :=
  (demoLeg.InitAndAssignBones skelBoneEnv demoSkeleton).2

/-- A character whose mesh sits 100 units above the world origin, on a floor at
height 98. -/
def demoCharacter : FlatCharacter :=
  { MeshOrigin := ⟨0, 0, 100⟩, FloorZ := 98 }

/-- Trace data in which neither probe has hit anything. -/
def noHitData : FHumanoidIKTraceData FlatHit :=
  { FootHitResult := ⟨false, ⟨0, 0, 0⟩⟩, ToeHitResult := ⟨false, ⟨0, 0, 0⟩⟩ }

/-! ## Leg chain: initialisation -/

/-- The chain length that `InitAndAssignBones` stores when every bone resolved: the
three segment sizes between the reference-pose locations found at the given
indices, added left to right. -/
def refPoseChainLength {BC α : Type} [Add α] [Sub α] [Mul α] (E : FBoneEnv BC α)
    (rb : BC) (iHip iThigh iShin iFoot : Int) : α :=
  FVector.Size E (E.GetRefPoseLocation rb iThigh - E.GetRefPoseLocation rb iHip)
    + FVector.Size E (E.GetRefPoseLocation rb iShin - E.GetRefPoseLocation rb iThigh)
    + FVector.Size E (E.GetRefPoseLocation rb iFoot - E.GetRefPoseLocation rb iShin)

/-- Closed form of `InitAndAssignBones`: every member of the chain after the call, in
terms of the chain before it and of the four `Init` calls. -/
theorem initAndAssignBones_eq {BC α : Type} [Zero α] [Add α] [Sub α] [Mul α]
    (E : FBoneEnv BC α) (c : FHumanoidLegChain α) (rb : BC) :
    c.InitAndAssignBones E rb =
      ((E.Init c.HipBone rb).1 && (E.Init c.ThighBone rb).1 && (E.Init c.ShinBone rb).1
          && (E.Init c.FootBone rb).1,
        { RootBone := c.HipBone
          EffectorBone := c.ShinBone
          FootRadius := c.FootRadius
          ToeRadius := c.ToeRadius
          HipBone := (E.Init c.HipBone rb).2
          ThighBone := (E.Init c.ThighBone rb).2
          ShinBone := (E.Init c.ShinBone rb).2
          FootBone := (E.Init c.FootBone rb).2
          bInitOk := (E.Init c.HipBone rb).1 && (E.Init c.ThighBone rb).1
            && (E.Init c.ShinBone rb).1 && (E.Init c.FootBone rb).1
          TotalChainLength :=
            if ((E.Init c.HipBone rb).1 && (E.Init c.ThighBone rb).1
                && (E.Init c.ShinBone rb).1 && (E.Init c.FootBone rb).1) = true then
              refPoseChainLength E rb (E.Init c.HipBone rb).2.BoneRef.BoneIndex
                (E.Init c.ThighBone rb).2.BoneRef.BoneIndex
                (E.Init c.ShinBone rb).2.BoneRef.BoneIndex
                (E.Init c.FootBone rb).2.BoneRef.BoneIndex
            else 0 }) := by
  cases h1 : (E.Init c.HipBone rb).1 <;> cases h2 : (E.Init c.ThighBone rb).1 <;>
    cases h3 : (E.Init c.ShinBone rb).1 <;> cases h4 : (E.Init c.FootBone rb).1 <;>
    simp [FHumanoidLegChain.InitAndAssignBones, refPoseChainLength, h1, h2, h3, h4]

/-- Frame of `IsValidInternal`: it only ever replaces the four bone members. -/
theorem isValidInternal_frame {BC α : Type} (E : FBoneEnv BC α)
    (c : FHumanoidLegChain α) (rb : BC) :
    (c.IsValidInternal E rb).2.TotalChainLength = c.TotalChainLength
      ∧ (c.IsValidInternal E rb).2.bInitOk = c.bInitOk
      ∧ (c.IsValidInternal E rb).2.RootBone = c.RootBone
      ∧ (c.IsValidInternal E rb).2.EffectorBone = c.EffectorBone
      ∧ (c.IsValidInternal E rb).2.FootRadius = c.FootRadius
      ∧ (c.IsValidInternal E rb).2.ToeRadius = c.ToeRadius := by
  cases h1 : (E.IsValid c.HipBone rb).1 <;> cases h2 : (E.IsValid c.ThighBone rb).1 <;>
    cases h3 : (E.IsValid c.ShinBone rb).1 <;> cases h4 : (E.IsValid c.FootBone rb).1 <;>
    simp [FHumanoidLegChain.IsValidInternal, h1, h2, h3, h4]

/-- The flag returned by `IsValidInternal` is the conjunction of the four `IsValid`
flags, each taken on the bone as it was before the call. -/
theorem isValidInternal_fst {BC α : Type} (E : FBoneEnv BC α)
    (c : FHumanoidLegChain α) (rb : BC) :
    (c.IsValidInternal E rb).1 =
      ((E.IsValid c.HipBone rb).1 && (E.IsValid c.ThighBone rb).1
        && (E.IsValid c.ShinBone rb).1 && (E.IsValid c.FootBone rb).1) := by
  cases h1 : (E.IsValid c.HipBone rb).1 <;> cases h2 : (E.IsValid c.ThighBone rb).1 <;>
    cases h3 : (E.IsValid c.ShinBone rb).1 <;> cases h4 : (E.IsValid c.FootBone rb).1 <;>
    simp [FHumanoidLegChain.IsValidInternal, h1, h2, h3, h4]

/-- C1. If all four bones (Hip, Thigh, Shin, Foot) resolve against the bone container,
`InitAndAssignBones` returns true and leaves `TotalChainLength` (which
`GetTotalChainLength` returns) equal to
`|knee - hip| + |ankle - knee| + |toe - ankle|`, the sizes being taken between the
reference-pose locations of the chain's Hip, Thigh, Shin and Foot bones. The value
of `TotalChainLength` and `bInitOk` before the call plays no part: the call
gives the same result from any such prior values, and any successful call
(in particular a repeated one) that finds the same four reference-pose locations
stores the same `TotalChainLength`. -/
theorem initAndAssignBones_total_chain_length {BC α : Type} [Zero α] [Add α] [Sub α] [Mul α]
    (E : FBoneEnv BC α) (c : FHumanoidLegChain α) (rb : BC)
    (hHip : (E.Init c.HipBone rb).1 = true) (hThigh : (E.Init c.ThighBone rb).1 = true)
    (hShin : (E.Init c.ShinBone rb).1 = true) (hFoot : (E.Init c.FootBone rb).1 = true) :
    let r := c.InitAndAssignBones E rb
    let hip := E.GetRefPoseLocation rb r.2.HipBone.BoneRef.BoneIndex
    let knee := E.GetRefPoseLocation rb r.2.ThighBone.BoneRef.BoneIndex
    let ankle := E.GetRefPoseLocation rb r.2.ShinBone.BoneRef.BoneIndex
    let toe := E.GetRefPoseLocation rb r.2.FootBone.BoneRef.BoneIndex
    r.1 = true
      ∧ r.2.TotalChainLength =
          FVector.Size E (knee - hip) + FVector.Size E (ankle - knee)
            + FVector.Size E (toe - ankle)
      ∧ r.2.GetTotalChainLength = r.2.TotalChainLength
      ∧ (∀ (len : α) (ok : Bool),
          FHumanoidLegChain.InitAndAssignBones E
            { c with TotalChainLength := len, bInitOk := ok } rb = r)
      ∧ (∀ (c2 : FHumanoidLegChain α) (rb2 : BC),
          (c2.InitAndAssignBones E rb2).1 = true →
          E.GetRefPoseLocation rb2 (c2.InitAndAssignBones E rb2).2.HipBone.BoneRef.BoneIndex
            = hip →
          E.GetRefPoseLocation rb2 (c2.InitAndAssignBones E rb2).2.ThighBone.BoneRef.BoneIndex
            = knee →
          E.GetRefPoseLocation rb2 (c2.InitAndAssignBones E rb2).2.ShinBone.BoneRef.BoneIndex
            = ankle →
          E.GetRefPoseLocation rb2 (c2.InitAndAssignBones E rb2).2.FootBone.BoneRef.BoneIndex
            = toe →
          (c2.InitAndAssignBones E rb2).2.TotalChainLength = r.2.TotalChainLength) := by
  intro r hip knee ankle toe
  have hr : r = c.InitAndAssignBones E rb := rfl
  rw [initAndAssignBones_eq] at hr
  simp only [hHip, hThigh, hShin, hFoot, Bool.and_self, if_true] at hr
  have hlen : r.2.TotalChainLength =
      FVector.Size E (knee - hip) + FVector.Size E (ankle - knee)
        + FVector.Size E (toe - ankle) := by
    simp only [hip, knee, ankle, toe, hr, refPoseChainLength]
  refine ⟨by rw [hr], hlen, rfl, ?_, ?_⟩
  · intro len ok
    rw [hr, initAndAssignBones_eq]
    simp only [hHip, hThigh, hShin, hFoot, Bool.and_self, if_true]
  · intro c2 rb2 h2 e1 e2 e3 e4
    rw [hlen, ← e1, ← e2, ← e3, ← e4]
    rw [initAndAssignBones_eq] at h2 ⊢
    simp only at h2
    simp only [h2, if_true, refPoseChainLength]

/-- C2. `InitAndAssignBones` returns false exactly when at least one of the four bones
(Hip, Thigh, Shin, Foot) fails to resolve against the bone container, and then
the chain ends with `bInitOk = false` and `TotalChainLength = 0`, so that
`GetTotalChainLength` returns 0, whatever the chain was before the call. -/
theorem initAndAssignBones_false_iff {BC α : Type} [Zero α] [Add α] [Sub α] [Mul α]
    (E : FBoneEnv BC α) (c : FHumanoidLegChain α) (rb : BC) :
    ((c.InitAndAssignBones E rb).1 = false ↔
        ((E.Init c.HipBone rb).1 = false ∨ (E.Init c.ThighBone rb).1 = false
          ∨ (E.Init c.ShinBone rb).1 = false ∨ (E.Init c.FootBone rb).1 = false))
      ∧ ((c.InitAndAssignBones E rb).1 = false →
          (c.InitAndAssignBones E rb).2.bInitOk = false
            ∧ (c.InitAndAssignBones E rb).2.TotalChainLength = 0
            ∧ (c.InitAndAssignBones E rb).2.GetTotalChainLength = 0) := by
  rw [initAndAssignBones_eq]
  unfold FHumanoidLegChain.GetTotalChainLength
  cases (E.Init c.HipBone rb).1 <;> cases (E.Init c.ThighBone rb).1 <;>
    cases (E.Init c.ShinBone rb).1 <;> cases (E.Init c.FootBone rb).1 <;> simp

/-- A witness of C2: the demo leg against the skeleton without the foot joint. -/
theorem initAndAssignBones_false_iff_witness :
    (demoLeg.InitAndAssignBones skelBoneEnv demoSkeletonNoFoot).1 = false
      ∧ (skelBoneEnv.Init demoLeg.FootBone demoSkeletonNoFoot).1 = false
      ∧ (demoLeg.InitAndAssignBones skelBoneEnv demoSkeletonNoFoot).2.bInitOk = false
      ∧ (demoLeg.InitAndAssignBones skelBoneEnv demoSkeletonNoFoot).2.TotalChainLength = 0
      ∧ (demoLeg.InitAndAssignBones skelBoneEnv demoSkeletonNoFoot).2.GetTotalChainLength
          = 0 :=
  ⟨by decide, by decide,
    (initAndAssignBones_false_iff skelBoneEnv demoLeg demoSkeletonNoFoot).2 (by decide)⟩

/-- A witness of C1: the demo leg against the demo skeleton (segments 5, 5 and 2),
initialised from a prior state with a stale length, and initialised a second time. -/
theorem initAndAssignBones_total_chain_length_witness :
    (skelBoneEnv.Init demoLeg.HipBone demoSkeleton).1 = true
      ∧ (skelBoneEnv.Init demoLeg.ThighBone demoSkeleton).1 = true
      ∧ (skelBoneEnv.Init demoLeg.ShinBone demoSkeleton).1 = true
      ∧ (skelBoneEnv.Init demoLeg.FootBone demoSkeleton).1 = true
      ∧ (demoLeg.InitAndAssignBones skelBoneEnv demoSkeleton).1 = true
      ∧ (demoLeg.InitAndAssignBones skelBoneEnv demoSkeleton).2.TotalChainLength = 12
      ∧ FHumanoidLegChain.InitAndAssignBones skelBoneEnv
          { demoLeg with TotalChainLength := 77, bInitOk := true } demoSkeleton
          = demoLeg.InitAndAssignBones skelBoneEnv demoSkeleton
      ∧ ((demoLeg.InitAndAssignBones skelBoneEnv demoSkeleton).2.InitAndAssignBones
          skelBoneEnv demoSkeleton).2.TotalChainLength = 12 :=
  have h := initAndAssignBones_total_chain_length skelBoneEnv demoLeg demoSkeleton
    (by decide) (by decide) (by decide) (by decide)
  ⟨by decide, by decide, by decide, by decide, h.1, h.2.1.trans (by decide),
    h.2.2.2.1 77 true,
    (h.2.2.2.2 (demoLeg.InitAndAssignBones skelBoneEnv demoSkeleton).2 demoSkeleton
      (by decide) (by decide) (by decide) (by decide) (by decide)).trans
      (h.2.1.trans (by decide))⟩

/-- C3 as stated fails: after a successful `InitAndAssignBones` (length 12), a later
call with a container that lacks the foot joint leaves `TotalChainLength = 0`,
and a later call with a container whose reference pose is twice as large
leaves `TotalChainLength = 24`. -/
theorem initAndAssignBones_reinit_changes_length :
    (demoLeg.InitAndAssignBones skelBoneEnv demoSkeleton).1 = true
      ∧ (demoLeg.InitAndAssignBones skelBoneEnv demoSkeleton).2.TotalChainLength = 12
      ∧ ((demoLeg.InitAndAssignBones skelBoneEnv demoSkeleton).2.InitAndAssignBones
          skelBoneEnv demoSkeletonNoFoot).2.TotalChainLength = 0
      ∧ ((demoLeg.InitAndAssignBones skelBoneEnv demoSkeleton).2.InitAndAssignBones
          skelBoneEnv demoSkeletonNoFoot).2.TotalChainLength
          ≠ (demoLeg.InitAndAssignBones skelBoneEnv demoSkeleton).2.TotalChainLength
      ∧ ((demoLeg.InitAndAssignBones skelBoneEnv demoSkeleton).2.InitAndAssignBones
          skelBoneEnv demoSkeletonTall).1 = true
      ∧ ((demoLeg.InitAndAssignBones skelBoneEnv demoSkeleton).2.InitAndAssignBones
          skelBoneEnv demoSkeletonTall).2.TotalChainLength = 24
      ∧ ((demoLeg.InitAndAssignBones skelBoneEnv demoSkeleton).2.InitAndAssignBones
          skelBoneEnv demoSkeletonTall).2.TotalChainLength
          ≠ (demoLeg.InitAndAssignBones skelBoneEnv demoSkeleton).2.TotalChainLength := by
  decide

/-- C3, amended. Once `InitAndAssignBones` has succeeded on a chain, `IsValidInternal`
(with any bone container) and `GetTotalChainLength` leave `TotalChainLength`
equal to the value that call computed (the sum of the three reference-pose
segment sizes), and `GetTotalChainLength` returns it.
A later `InitAndAssignBones` call recomputes `TotalChainLength` from the
container it is given: the sum of the three reference-pose segment sizes in
that container when all four bones resolve in it, and 0 when one does not. -/
theorem totalChainLength_after_init {BC α : Type} [Zero α] [Add α] [Sub α] [Mul α]
    (E : FBoneEnv BC α) (c : FHumanoidLegChain α) (rb : BC)
    (hok : (c.InitAndAssignBones E rb).1 = true) (rb2 : BC) :
    let c1 := (c.InitAndAssignBones E rb).2
    let c2 := (c1.InitAndAssignBones E rb2).2
    c1.TotalChainLength =
        FVector.Size E (E.GetRefPoseLocation rb c1.ThighBone.BoneRef.BoneIndex
            - E.GetRefPoseLocation rb c1.HipBone.BoneRef.BoneIndex)
          + FVector.Size E (E.GetRefPoseLocation rb c1.ShinBone.BoneRef.BoneIndex
            - E.GetRefPoseLocation rb c1.ThighBone.BoneRef.BoneIndex)
          + FVector.Size E (E.GetRefPoseLocation rb c1.FootBone.BoneRef.BoneIndex
            - E.GetRefPoseLocation rb c1.ShinBone.BoneRef.BoneIndex)
      ∧ (c1.IsValidInternal E rb2).2.TotalChainLength = c1.TotalChainLength
      ∧ (c1.IsValidInternal E rb2).2.GetTotalChainLength = c1.TotalChainLength
      ∧ c1.GetTotalChainLength = c1.TotalChainLength
      ∧ ((c1.InitAndAssignBones E rb2).1 = true →
          c2.TotalChainLength =
            FVector.Size E (E.GetRefPoseLocation rb2 c2.ThighBone.BoneRef.BoneIndex
                - E.GetRefPoseLocation rb2 c2.HipBone.BoneRef.BoneIndex)
              + FVector.Size E (E.GetRefPoseLocation rb2 c2.ShinBone.BoneRef.BoneIndex
                - E.GetRefPoseLocation rb2 c2.ThighBone.BoneRef.BoneIndex)
              + FVector.Size E (E.GetRefPoseLocation rb2 c2.FootBone.BoneRef.BoneIndex
                - E.GetRefPoseLocation rb2 c2.ShinBone.BoneRef.BoneIndex))
      ∧ ((c1.InitAndAssignBones E rb2).1 = false → c2.TotalChainLength = 0) := by
  intro c1 c2
  refine ⟨?_, (isValidInternal_frame E c1 rb2).1, (isValidInternal_frame E c1 rb2).1, rfl,
    ?_, ?_⟩
  · have hc1 : c1 = (c.InitAndAssignBones E rb).2 := rfl
    rw [initAndAssignBones_eq] at hok hc1
    simp only at hok
    simp only [hok, if_true, refPoseChainLength] at hc1
    rw [hc1]
  · intro h
    have hc2 : c2 = (c1.InitAndAssignBones E rb2).2 := rfl
    rw [initAndAssignBones_eq] at h hc2
    simp only at h
    simp only [h, if_true, refPoseChainLength] at hc2
    rw [hc2]
  · intro h
    have hc2 : c2 = (c1.InitAndAssignBones E rb2).2 := rfl
    rw [initAndAssignBones_eq] at h hc2
    simp only at h
    rw [hc2]
    simp [h]

/-- A witness of amended C3: the demo leg, initialised against the demo skeleton, then
checked and initialised again against the skeleton without the foot joint. -/
theorem totalChainLength_after_init_witness :
    (demoLeg.InitAndAssignBones skelBoneEnv demoSkeleton).1 = true
      ∧ ((demoLeg.InitAndAssignBones skelBoneEnv demoSkeleton).2.IsValidInternal
          skelBoneEnv demoSkeletonNoFoot).2.TotalChainLength = 12
      ∧ ((demoLeg.InitAndAssignBones skelBoneEnv demoSkeleton).2.InitAndAssignBones
          skelBoneEnv demoSkeletonNoFoot).2.TotalChainLength = 0 :=
  have h := totalChainLength_after_init skelBoneEnv demoLeg demoSkeleton (by decide)
    demoSkeletonNoFoot
  ⟨by decide, h.2.1.trans (h.1.trans (by decide)), h.2.2.2.2.2 (by decide)⟩

/-- C6 fails on the code: on the demo leg, whose bones are not yet resolved, a
successful `InitAndAssignBones` resolves `HipBone` to index 1 and `ShinBone` to
index 3, while `RootBone` and `EffectorBone` hold the copies taken before the
`Init` calls, which are still unresolved; so `RootBone ≠ HipBone` and
`EffectorBone ≠ ShinBone` after the call. -/
theorem initAndAssignBones_root_effector_stale :
    (demoLeg.InitAndAssignBones skelBoneEnv demoSkeleton).1 = true
      ∧ (demoLeg.InitAndAssignBones skelBoneEnv demoSkeleton).2.HipBone
          = { BoneRef := { BoneName := 1, BoneIndex := 1 }, BoneIndex := 1 }
      ∧ (demoLeg.InitAndAssignBones skelBoneEnv demoSkeleton).2.RootBone
          = { BoneRef := { BoneName := 1, BoneIndex := -1 }, BoneIndex := -1 }
      ∧ (demoLeg.InitAndAssignBones skelBoneEnv demoSkeleton).2.ShinBone
          = { BoneRef := { BoneName := 3, BoneIndex := 3 }, BoneIndex := 3 }
      ∧ (demoLeg.InitAndAssignBones skelBoneEnv demoSkeleton).2.EffectorBone
          = { BoneRef := { BoneName := 3, BoneIndex := -1 }, BoneIndex := -1 }
      ∧ (demoLeg.InitAndAssignBones skelBoneEnv demoSkeleton).2.RootBone
          ≠ (demoLeg.InitAndAssignBones skelBoneEnv demoSkeleton).2.HipBone
      ∧ (demoLeg.InitAndAssignBones skelBoneEnv demoSkeleton).2.EffectorBone
          ≠ (demoLeg.InitAndAssignBones skelBoneEnv demoSkeleton).2.ShinBone := by
  decide

/-- After any call of `InitAndAssignBones`, `RootBone` and `EffectorBone` are the
`HipBone` and `ShinBone` of the chain as they were before the call. -/
theorem initAndAssignBones_root_effector {BC α : Type} [Zero α] [Add α] [Sub α] [Mul α]
    (E : FBoneEnv BC α) (c : FHumanoidLegChain α) (rb : BC) :
    (c.InitAndAssignBones E rb).2.RootBone = c.HipBone
      ∧ (c.InitAndAssignBones E rb).2.EffectorBone = c.ShinBone
      ∧ (c.InitAndAssignBones E rb).2.HipBone = (E.Init c.HipBone rb).2
      ∧ (c.InitAndAssignBones E rb).2.ShinBone = (E.Init c.ShinBone rb).2 := by
  rw [initAndAssignBones_eq]
  exact ⟨rfl, rfl, rfl, rfl⟩

/-! ## Leg chain: validity check -/

/-- C7. `IsValidInternal` returns true exactly when `HipBone`, `ThighBone`, `ShinBone` and
`FootBone` are all valid against the given bone container, and it leaves
`TotalChainLength` and `bInitOk` unchanged: no length is recomputed. -/
theorem isValidInternal_iff_and_frame {BC α : Type} (E : FBoneEnv BC α)
    (c : FHumanoidLegChain α) (rb : BC) :
    ((c.IsValidInternal E rb).1 = true ↔
        ((E.IsValid c.HipBone rb).1 = true ∧ (E.IsValid c.ThighBone rb).1 = true
          ∧ (E.IsValid c.ShinBone rb).1 = true ∧ (E.IsValid c.FootBone rb).1 = true))
      ∧ (c.IsValidInternal E rb).2.TotalChainLength = c.TotalChainLength
      ∧ (c.IsValidInternal E rb).2.GetTotalChainLength = c.GetTotalChainLength
      ∧ (c.IsValidInternal E rb).2.bInitOk = c.bInitOk := by
  refine ⟨?_, (isValidInternal_frame E c rb).1, (isValidInternal_frame E c rb).1,
    (isValidInternal_frame E c rb).2.1⟩
  rw [isValidInternal_fst]
  simp only [Bool.and_eq_true, and_assoc]

/-! ## Trace data wrapper -/

/-- C8. `GetTraceData` returns the stored trace data unchanged whether or not
`bUpdatedThisTick` is set (with the flag false it still hands back the stored,
stale data; the only difference is the warning of a debug build), the call
changes neither the stored data nor the flag, and a freshly constructed
wrapper has `bUpdatedThisTick = false`. -/
theorem getTraceData_returns_stored {H : Type} (ENABLE_IK_DEBUG flag : Bool)
    (t : FHumanoidIKTraceData H) (defaultHit : H) :
    (UHumanoidIKTraceData_Wrapper.GetTraceData ENABLE_IK_DEBUG
        { bUpdatedThisTick := flag, TraceData := t }).1 = t
      ∧ (UHumanoidIKTraceData_Wrapper.GetTraceData ENABLE_IK_DEBUG
        { bUpdatedThisTick := flag, TraceData := t }).2.2
          = { bUpdatedThisTick := flag, TraceData := t }
      ∧ (UHumanoidIKTraceData_Wrapper.GetTraceData ENABLE_IK_DEBUG
        { bUpdatedThisTick := flag, TraceData := t }).2.1 = (ENABLE_IK_DEBUG && !flag)
      ∧ (UHumanoidIKTraceData_Wrapper.construct defaultHit).bUpdatedThisTick = false
      ∧ ((UHumanoidIKTraceData_Wrapper.construct defaultHit).GetTraceData ENABLE_IK_DEBUG).1
          = { FootHitResult := defaultHit, ToeHitResult := defaultHit } := by
  refine ⟨rfl, rfl, ?_, rfl, rfl⟩
  cases ENABLE_IK_DEBUG <;> cases flag <;> rfl

/-! ## The ground probe -/

/-- Engine `FMath::Max` is the maximum of the order. -/
theorem fmath_max_eq_max {α : Type} [LinearOrder α] (a b : α) : FMath.Max a b = max a b := by
  unfold FMath.Max
  split_ifs with h
  · exact (max_eq_left h).symm
  · exact (max_eq_right (le_of_lt (not_le.mp h))).symm

/-- Engine `FMath::Max3` is the maximum of its three arguments. -/
theorem fmath_max3_eq_max {α : Type} [LinearOrder α] (a b c : α) :
    FMath.Max3 a b c = max (max a b) c := by
  unfold FMath.Max3
  rw [fmath_max_eq_max, fmath_max_eq_max]

/-- C4. With a character that is not null, the component-space start point of the foot
probe is `(foot.X, foot.Y, H)` and that of the toe probe is `(toe.X, toe.Y, H)`,
where `foot` is the component-space location of the chain's `ShinBone` joint,
`toe` that of its `FootBone` joint, and
`H = max(foot.Z + FootRadius, toe.Z + ToeRadius, pelvis.Z)`. -/
theorem legTrace_start_points {Ch Sk W P H α : Type} [LinearOrder α] [Add α] [Sub α]
    (E : FTraceEnv Ch Sk W P H α) (Character : Ch) (MeshBases : P)
    (LegChain : FHumanoidLegChain α) (PelvisBone : FIKBone) (MaxPelvisAdjustHeight : α) :
    let foot := E.GetBoneCSLocation (E.GetMesh Character) MeshBases LegChain.ShinBone.BoneIndex
    let toe := E.GetBoneCSLocation (E.GetMesh Character) MeshBases LegChain.FootBone.BoneIndex
    let pelvis := E.GetBoneCSLocation (E.GetMesh Character) MeshBases PelvisBone.BoneIndex
    let startHeight :=
      max (max (foot.Z + LegChain.FootRadius) (toe.Z + LegChain.ToeRadius)) pelvis.Z
    let S := FHumanoidIK.HumanoidIKLegTraceSegments E Character MeshBases LegChain PelvisBone
      MaxPelvisAdjustHeight
    S.FootTraceStart = ⟨foot.X, foot.Y, startHeight⟩
      ∧ S.ToeTraceStart = ⟨toe.X, toe.Y, startHeight⟩ := by
  intro foot toe pelvis startHeight S
  simp only [S, startHeight, foot, toe, pelvis, FHumanoidIK.HumanoidIKLegTraceSegments,
    fmath_max3_eq_max, and_self]

/-- C5. With a character that is not null, the component-space end point of the foot
probe is `(foot.X, foot.Y, E)` and that of the toe probe is `(toe.X, toe.Y, E)`
with `E = pelvis.Z - (GetTotalChainLength() + FootRadius + ToeRadius +
MaxPelvisAdjustHeight)`; the start and the end point of each probe have the
same X and the same Y. -/
theorem legTrace_end_points {Ch Sk W P H α : Type} [LinearOrder α] [Add α] [Sub α]
    (E : FTraceEnv Ch Sk W P H α) (Character : Ch) (MeshBases : P)
    (LegChain : FHumanoidLegChain α) (PelvisBone : FIKBone) (MaxPelvisAdjustHeight : α) :
    let foot := E.GetBoneCSLocation (E.GetMesh Character) MeshBases LegChain.ShinBone.BoneIndex
    let toe := E.GetBoneCSLocation (E.GetMesh Character) MeshBases LegChain.FootBone.BoneIndex
    let pelvis := E.GetBoneCSLocation (E.GetMesh Character) MeshBases PelvisBone.BoneIndex
    let endHeight := pelvis.Z -
      (LegChain.GetTotalChainLength + LegChain.FootRadius + LegChain.ToeRadius
        + MaxPelvisAdjustHeight)
    let S := FHumanoidIK.HumanoidIKLegTraceSegments E Character MeshBases LegChain PelvisBone
      MaxPelvisAdjustHeight
    S.FootTraceEnd = ⟨foot.X, foot.Y, endHeight⟩
      ∧ S.ToeTraceEnd = ⟨toe.X, toe.Y, endHeight⟩
      ∧ S.FootTraceStart.X = S.FootTraceEnd.X ∧ S.FootTraceStart.Y = S.FootTraceEnd.Y
      ∧ S.ToeTraceStart.X = S.ToeTraceEnd.X ∧ S.ToeTraceStart.Y = S.ToeTraceEnd.Y := by
  intro foot toe pelvis endHeight S
  exact ⟨rfl, rfl, rfl, rfl, rfl, rfl⟩

/-- C9. In exact arithmetic (an ordered additive group of scalars) and with a character
that is not null, both probes satisfy `startHeight - endHeight >=
TotalChainLength + FootRadius + ToeRadius + MaxPelvisAdjustHeight`, the start
height is at least each of `pelvis.Z`, `foot.Z + FootRadius` and
`toe.Z + ToeRadius`, and whenever the four lengths are non-negative the start
height is not below the end height. -/
theorem legTrace_window {Ch Sk W P H α : Type} [LinearOrderedAddCommGroup α]
    (E : FTraceEnv Ch Sk W P H α) (Character : Ch) (MeshBases : P)
    (LegChain : FHumanoidLegChain α) (PelvisBone : FIKBone) (MaxPelvisAdjustHeight : α) :
    let foot := E.GetBoneCSLocation (E.GetMesh Character) MeshBases LegChain.ShinBone.BoneIndex
    let toe := E.GetBoneCSLocation (E.GetMesh Character) MeshBases LegChain.FootBone.BoneIndex
    let pelvis := E.GetBoneCSLocation (E.GetMesh Character) MeshBases PelvisBone.BoneIndex
    let reach := LegChain.GetTotalChainLength + LegChain.FootRadius + LegChain.ToeRadius
      + MaxPelvisAdjustHeight
    let S := FHumanoidIK.HumanoidIKLegTraceSegments E Character MeshBases LegChain PelvisBone
      MaxPelvisAdjustHeight
    S.FootTraceStart.Z - S.FootTraceEnd.Z ≥ reach
      ∧ S.ToeTraceStart.Z - S.ToeTraceEnd.Z ≥ reach
      ∧ S.ToeTraceStart.Z = S.FootTraceStart.Z
      ∧ S.ToeTraceEnd.Z = S.FootTraceEnd.Z
      ∧ S.FootTraceStart.Z ≥ pelvis.Z
      ∧ S.FootTraceStart.Z ≥ foot.Z + LegChain.FootRadius
      ∧ S.FootTraceStart.Z ≥ toe.Z + LegChain.ToeRadius
      ∧ (0 ≤ LegChain.GetTotalChainLength → 0 ≤ LegChain.FootRadius →
          0 ≤ LegChain.ToeRadius → 0 ≤ MaxPelvisAdjustHeight →
          S.FootTraceEnd.Z ≤ S.FootTraceStart.Z ∧ S.ToeTraceEnd.Z ≤ S.ToeTraceStart.Z) := by
  intro foot toe pelvis reach S
  have hS : S.FootTraceStart.Z =
      max (max (foot.Z + LegChain.FootRadius) (toe.Z + LegChain.ToeRadius)) pelvis.Z := by
    simp only [S, foot, toe, pelvis, FHumanoidIK.HumanoidIKLegTraceSegments,
      fmath_max3_eq_max]
  have hE : S.FootTraceEnd.Z = pelvis.Z - reach := rfl
  have hp : pelvis.Z ≤ S.FootTraceStart.Z := by rw [hS]; exact le_max_right _ _
  have hf : foot.Z + LegChain.FootRadius ≤ S.FootTraceStart.Z := by
    rw [hS]; exact le_trans (le_max_left _ _) (le_max_left _ _)
  have ht : toe.Z + LegChain.ToeRadius ≤ S.FootTraceStart.Z := by
    rw [hS]; exact le_trans (le_max_right _ _) (le_max_left _ _)
  have hw : reach ≤ S.FootTraceStart.Z - S.FootTraceEnd.Z := by
    rw [hE]
    have : S.FootTraceStart.Z - (pelvis.Z - reach) = reach + (S.FootTraceStart.Z - pelvis.Z) := by
      abel
    rw [this]
    exact le_add_of_nonneg_right (sub_nonneg.mpr hp)
  refine ⟨hw, hw, rfl, rfl, hp, hf, ht, ?_⟩
  intro h1 h2 h3 h4
  have hr : 0 ≤ reach := add_nonneg (add_nonneg (add_nonneg h1 h2) h3) h4
  have : S.FootTraceEnd.Z ≤ S.FootTraceStart.Z := sub_nonneg.mp (le_trans hr hw)
  exact ⟨this, this⟩

/-- A witness of C9: the initialised demo leg (length 12, radii 10 and 5) in its
reference pose with a pelvis allowance of 3: the probes run from height 14
down to height -18. -/
theorem legTrace_window_witness :
    (0 : Int) ≤ demoLegReady.GetTotalChainLength ∧ (0 : Int) ≤ demoLegReady.FootRadius
      ∧ (0 : Int) ≤ demoLegReady.ToeRadius ∧ (0 : Int) ≤ 3
      ∧ (FHumanoidIK.HumanoidIKLegTraceSegments flatTraceEnv demoCharacter
          demoSkeleton.RefPose demoLegReady demoPelvis 3).FootTraceStart.Z = 14
      ∧ (FHumanoidIK.HumanoidIKLegTraceSegments flatTraceEnv demoCharacter
          demoSkeleton.RefPose demoLegReady demoPelvis 3).FootTraceEnd.Z = -18
      ∧ (FHumanoidIK.HumanoidIKLegTraceSegments flatTraceEnv demoCharacter
          demoSkeleton.RefPose demoLegReady demoPelvis 3).FootTraceEnd.Z
        ≤ (FHumanoidIK.HumanoidIKLegTraceSegments flatTraceEnv demoCharacter
          demoSkeleton.RefPose demoLegReady demoPelvis 3).FootTraceStart.Z :=
  have h := legTrace_window flatTraceEnv demoCharacter demoSkeleton.RefPose demoLegReady
    demoPelvis 3
  ⟨by decide, by decide, by decide, by decide, by decide, by decide,
    (h.2.2.2.2.2.2.2 (by decide) (by decide) (by decide) (by decide)).1⟩

/-- C10. Called with a null character, `HumanoidIKLegTrace` leaves `OutTraceData` (both
hit results) exactly as it was. Called with a character that is not null, it
writes `FootHitResult` with one line trace along the foot probe and
`ToeHitResult` with one line trace along the toe probe, both from the
character's world, ignoring the character, on the pawn channel, between the
world-space images of the component-space end points. -/
theorem legTrace_out_trace_data {Ch Sk W P H α : Type} [LinearOrder α] [Add α] [Sub α]
    (E : FTraceEnv Ch Sk W P H α) (Character : Ch) (MeshBases : P)
    (LegChain : FHumanoidLegChain α) (PelvisBone : FIKBone) (MaxPelvisAdjustHeight : α)
    (OutTraceData : FHumanoidIKTraceData H) (bEnableDebugDraw : Bool) :
    let S := FHumanoidIK.HumanoidIKLegTraceSegments E Character MeshBases LegChain PelvisBone
      MaxPelvisAdjustHeight
    FHumanoidIK.HumanoidIKLegTrace E none MeshBases LegChain PelvisBone MaxPelvisAdjustHeight
        OutTraceData bEnableDebugDraw = OutTraceData
      ∧ (FHumanoidIK.HumanoidIKLegTrace E (some Character) MeshBases LegChain PelvisBone
          MaxPelvisAdjustHeight OutTraceData bEnableDebugDraw).FootHitResult
        = E.LineTrace (E.GetWorld Character) Character
            (E.ComponentToWorld (E.GetMesh Character) S.FootTraceStart)
            (E.ComponentToWorld (E.GetMesh Character) S.FootTraceEnd)
            OutTraceData.FootHitResult ECollisionChannel.ECC_Pawn false bEnableDebugDraw
      ∧ (FHumanoidIK.HumanoidIKLegTrace E (some Character) MeshBases LegChain PelvisBone
          MaxPelvisAdjustHeight OutTraceData bEnableDebugDraw).ToeHitResult
        = E.LineTrace (E.GetWorld Character) Character
            (E.ComponentToWorld (E.GetMesh Character) S.ToeTraceStart)
            (E.ComponentToWorld (E.GetMesh Character) S.ToeTraceEnd)
            OutTraceData.ToeHitResult ECollisionChannel.ECC_Pawn false bEnableDebugDraw := by
  intro S
  exact ⟨rfl, rfl, rfl⟩

/-- The whole probe on the demo character standing in its reference pose: both probes
run from world height 114 to world height 82 and hit the floor at height 98
below the foot joint and below the toe joint. -/
theorem legTrace_demo :
    FHumanoidIK.HumanoidIKLegTrace flatTraceEnv (some demoCharacter) demoSkeleton.RefPose
        demoLegReady demoPelvis 3 noHitData false
      = { FootHitResult := ⟨true, ⟨0, 0, 98⟩⟩, ToeHitResult := ⟨true, ⟨2, 0, 98⟩⟩ } := by
  decide
